import Mathlib

/-
Verification development for pharmadiff's `geom_dataset.py`
(`GeomDrugsDataset.process`, `custome_collate`, `__len__`/`__getitem__`,
the atom-symbol vocabularies and `GeomInfos`' one-hot helpers).

The corpus-building loop is embedded shallowly.  External chemistry-toolkit
calls (sanitize/kekulize, `mol_to_torch_geometric`, `mol_to_torch_pharmacophore`,
`Chem.RemoveHs`, `Chem.MolToSmiles`) are out of scope of the source file, so a
`Conformer` value records the outcome each of those calls would have on the
underlying conformer; the control flow of `process` itself is translated
statement by statement.  Ligand graphs, pharmacophore sets, hydrogen-free
molecules and mean positions are abstract type parameters `L`, `P`, `M`, `Pos`:
the loop never inspects them, it only routes them.
-/

/-- Raised by `dataset_utils.mol_to_torch_geometric` (modelled from the spec:
the encoder "fails with `UnknownElementError` if the symbol is absent" from the
atom vocabulary; the encoder itself lives outside this source file). -/
structure UnknownElementError where
  symbol : String
  deriving DecidableEq, Repr

/-- Outcomes of the external chemistry-toolkit calls on one raw conformer.
`sanitize_ok` / `kekulize_ok` say whether `Chem.SanitizeMol` / `Chem.Kekulize`
raise; `mol_to_torch_geometric` is the encoder result (ligand graph and mean
position) or an `UnknownElementError`; `mol_to_torch_pharmacophore` takes the
mean position and returns `none` when derivation yields nothing;
`remove_hs` is `Chem.RemoveHs(conformer, sanitize=False)` (it may raise, and
may return Python `None`); `mol_to_smiles` is `Chem.MolToSmiles` on the
hydrogen-free molecule (`none` models a Python `None` result, which the source
tests for). -/
structure Conformer (L P M Pos : Type) where
  sanitize_ok : Bool
  kekulize_ok : Bool
  mol_to_torch_geometric : Except UnknownElementError (L × Pos)
  mol_to_torch_pharmacophore : Pos → Option P
  remove_hs : Except Unit (Option M)
  mol_to_smiles : M → Option String

/-- The ambient configuration of `GeomDrugsDataset.process`: the `remove_h`
flag, `dataset_utils.remove_hydrogens` (external to this file), and the
optional `pre_filter` / `pre_transform` hooks of `InMemoryDataset`. -/
structure Env (L P : Type) where
  remove_h : Bool
  remove_hydrogens : L → P → L × P
  pre_filter : Option (L → Bool)
  pre_transform : Option (L → L)

/-- The mutable locals of `GeomDrugsDataset.process`: the four accumulator
lists and the Python local variable `smiles_no_h`, which is function-scoped and
therefore persists across loop iterations.  `smiles_no_h = none` models the
variable being still unbound (reading it raises `NameError`); `some v` models
it bound to `v` (where `v = none` is Python `None`). -/
structure ProcessState (L P : Type) where
  data_list : List (L × P)
  all_smiles : List String
  mols_list : List L
  all_smiles_noh : List String
  smiles_no_h : Option (Option String)
  deriving DecidableEq, Repr

/-- Body of the inner conformer loop of `GeomDrugsDataset.process`
(geom_dataset.py lines 112-139), translated statement by statement:

* `try: SanitizeMol; Kekulize except: continue` — on failure return the state
  unchanged;
* `data, pos_mean = mol_to_torch_geometric(...)` — NOT inside the `try`, so an
  `UnknownElementError` propagates as `.error`;
* `if pharmacophore is None: continue`;
* optional `remove_hydrogens`, `pre_filter` (`continue` when rejected),
  `pre_transform`;
* append to `data_list` and `mols_list`;
* the trailing `try` block around `Chem.RemoveHs` / `Chem.MolToSmiles`:
  when `RemoveHs` returns `None` the variable `smiles_no_h` keeps whatever
  binding it had (possibly from an earlier record, possibly unbound — reading
  an unbound variable raises `NameError`, caught by the bare `except`). -/
def processConformerBody {L P M Pos : Type} (env : Env L P)
    (c : Conformer L P M Pos) (st : ProcessState L P) :
    Except UnknownElementError (ProcessState L P) :=
  if c.sanitize_ok && c.kekulize_ok then
    match c.mol_to_torch_geometric with
    | .error e => .error e
    | .ok (data0, pos_mean) =>
      match c.mol_to_torch_pharmacophore pos_mean with
      | none => .ok st
      | some pharma0 =>
        let dp := if env.remove_h then env.remove_hydrogens data0 pharma0
                  else (data0, pharma0)
        if (match env.pre_filter with
            | some f => !(f dp.1)
            | none => false) then .ok st
        else
          let data2 := match env.pre_transform with
                       | some t => t dp.1
                       | none => dp.1
          let st1 : ProcessState L P :=
            { st with data_list := st.data_list ++ [(data2, dp.2)],
                      mols_list := st.mols_list ++ [data2] }
          match c.remove_hs with
          | .error _ => .ok st1
          | .ok mol_no_h =>
            let v : Option (Option String) :=
              match mol_no_h with
              | some m => some (c.mol_to_smiles m)
              | none => st1.smiles_no_h
            match v with
            | none => .ok { st1 with smiles_no_h := none }
            | some none => .ok { st1 with smiles_no_h := some none }
            | some (some s) =>
              .ok { st1 with smiles_no_h := some (some s),
                             all_smiles_noh := st1.all_smiles_noh ++ [s] }
  else .ok st

/-- The inner loop `for j, conformer in enumerate(all_conformers)` with its
`if j >= 1: break` guard (geom_dataset.py lines 109-111). -/
def conformerLoop {L P M Pos : Type} (env : Env L P) :
    List (Conformer L P M Pos) → Nat → ProcessState L P →
    Except UnknownElementError (ProcessState L P)
  | [], _, st => .ok st
  | c :: rest, j, st =>
    if 1 ≤ j then .ok st
    else
      match processConformerBody env c st with
      | .error e => .error e
      | .ok st1 => conformerLoop env rest (j + 1) st1

/-- The outer loop `for i, data in enumerate(tqdm(all_data))` of
`GeomDrugsDataset.process`: unpack `(smiles, all_conformers)`, append `smiles`
to `all_smiles` unconditionally (line 108, before any check), then run the
conformer loop. -/
def recordLoop {L P M Pos : Type} (env : Env L P) :
    List (String × List (Conformer L P M Pos)) → ProcessState L P →
    Except UnknownElementError (ProcessState L P)
  | [], st => .ok st
  | (smiles, all_conformers) :: rest, st =>
    let st0 := { st with all_smiles := st.all_smiles ++ [smiles] }
    match conformerLoop env all_conformers 0 st0 with
    | .error e => .error e
    | .ok st1 => recordLoop env rest st1

/-- All four accumulator lists start empty and `smiles_no_h` starts unbound. -/
def initState {L P : Type} : ProcessState L P :=
  { data_list := [], all_smiles := [], mols_list := [],
    all_smiles_noh := [], smiles_no_h := none }

/-- The record-processing phase of `GeomDrugsDataset.process` over the raw
split `all_data`.  An `.error` means an uncaught exception aborted the build;
`.ok st` gives the accumulators from which the artifacts are persisted. -/
def process {L P M Pos : Type} (env : Env L P)
    (all_data : List (String × List (Conformer L P M Pos))) :
    Except UnknownElementError (ProcessState L P) :=
  recordLoop env all_data initState

/-- The persisted with-hydrogen SMILES artifact `set(all_smiles)`
(geom_dataset.py line 153), as a duplicate-free list. -/
def smiles_set {L P : Type} (st : ProcessState L P) : List String :=
  st.all_smiles.dedup

/-- The persisted no-hydrogen SMILES artifact `set(all_smiles_noh)`
(geom_dataset.py line 154), as a duplicate-free list. -/
def smiles_noh_set {L P : Type} (st : ProcessState L P) : List String :=
  st.all_smiles_noh.dedup

/-- The dict produced by `custome_collate` and stored by `__init__` as
`self.ligand` / `self.pharmacophore`. -/
structure CollatedData (L P : Type) where
  ligand : List L
  pharmacophore : List P
  deriving DecidableEq, Repr

/-- `GeomDrugsDataset.custome_collate`: split `data_list` into the ligand list
and the pharmacophore list (the `assert len(ligands) == len(pharmacophores)`
is proved below). -/
def custome_collate {L P : Type} (data_list : List (L × P)) : CollatedData L P :=
  { ligand := data_list.map (fun item => item.1),
    pharmacophore := data_list.map (fun item => item.2) }

/-- `GeomDrugsDataset.__len__`: the length of `self.ligand`. -/
def dataset_len {L P : Type} (d : CollatedData L P) : Nat :=
  d.ligand.length

/-- `GeomDrugsDataset.__getitem__`: index both stored lists at `idx` and
return the pair (`none` models an `IndexError`). -/
def dataset_getitem {L P : Type} (d : CollatedData L P) (idx : Nat) :
    Option (L × P) :=
  match d.ligand[idx]?, d.pharmacophore[idx]? with
  | some a, some b => some (a, b)
  | _, _ => none

/-- The module-level `full_atom_encoder` table (geom_dataset.py lines 26-27),
in source order. -/
def full_atom_encoder : List (String × Nat) :=
  [("H", 0), ("B", 1), ("C", 2), ("N", 3), ("O", 4), ("F", 5), ("Al", 6),
   ("Si", 7), ("P", 8), ("S", 9), ("Cl", 10), ("As", 11), ("Br", 12),
   ("I", 13), ("Hg", 14), ("Bi", 15)]

/-- The hydrogen-free vocabulary built by both `GeomDrugsDataset.__init__` and
`GeomInfos.__init__` when `remove_h` is set:
`{k: v - 1 for k, v in self.atom_encoder.items() if k != 'H'}`. -/
def atom_encoder_noh : List (String × Nat) :=
  (full_atom_encoder.filter (fun kv => kv.1 ≠ "H")).map
    (fun kv => (kv.1, kv.2 - 1))

/-- `F.one_hot(i, num_classes)`: the length-`num_classes` 0/1 vector with a 1
at position `i` (torch requires `i < num_classes`; within that contract this
model agrees with it). -/
def one_hot (num_classes i : Nat) : List Nat :=
  (List.range num_classes).map (fun j => if j = i then 1 else 0)

/-- `torch.argmax` on a vector: index of the first maximal entry. -/
def argmax : List Nat → Nat
  | [] => 0
  | x :: xs => if xs.foldr max 0 ≤ x then 0 else argmax xs + 1

/-- Modelled from the spec: `PlaceHolder.mask` (external to this file) zeroes
out entries beyond the validity mask — a row at a masked-off node position
becomes all zeros, a row at a selected position is unchanged. -/
def mask_row (m : Bool) (row : List Nat) : List Nat :=
  if m then row else row.map (fun _ => 0)

/-- The `X` component of `GeomInfos.to_one_hot`: one-hot encode every
atom-type code, then apply the node mask. -/
def to_one_hot_X (num_atom_types : Nat) (X : List Nat)
    (node_mask : List Bool) : List (List Nat) :=
  List.zipWith mask_row node_mask (X.map (one_hot num_atom_types))

/-- `GeomInfos.one_hot_charges`: `F.one_hot((charges + 2).long(), num_classes=6)`. -/
def one_hot_charges (c : Int) : List Nat :=
  one_hot 6 (c + 2).toNat

/-- `GeomInfos.pharma_to_one_hot`: one-hot over `len(FAMILY_MAPPING) + 1`
classes, drop the reserved padding channel 0 (`X[:, :, 1:]`), multiply by the
pharmacophore mask (`* pharma_mask.unsqueeze(-1)`).  `num_families` stands for
`len(FAMILY_MAPPING)` (the family table lives outside this file). -/
def pharma_to_one_hot (num_families : Nat) (X : List Nat)
    (pharma_mask : List Nat) : List (List Nat) :=
  List.zipWith (fun row m => (row.drop 1).map (fun v => v * m))
    (X.map (one_hot (num_families + 1))) pharma_mask

/-! ### Helper lemmas about `one_hot` and `argmax` -/

theorem range_map_shift (f : Nat → Nat) (n : Nat) :
    (List.range (n + 1)).map f = f 0 :: (List.range n).map (fun j => f (j + 1)) := by
  rw [List.range_succ_eq_map]
  simp [List.map_map, Function.comp]

theorem one_hot_succ_zero (n : Nat) :
    one_hot (n + 1) 0 = 1 :: List.replicate n 0 := by
  rw [one_hot, range_map_shift]
  simp

theorem one_hot_succ_succ (n i : Nat) :
    one_hot (n + 1) (i + 1) = 0 :: one_hot n i := by
  rw [one_hot, range_map_shift, one_hot]
  simp

theorem foldr_max_replicate_zero (n : Nat) :
    (List.replicate n (0 : Nat)).foldr max 0 = 0 := by
  induction n with
  | zero => rfl
  | succ n ih => simp [List.replicate_succ, ih]

theorem foldr_max_one_hot (n i : Nat) (h : i < n) :
    (one_hot n i).foldr max 0 = 1 := by
  induction n generalizing i with
  | zero => omega
  | succ n ih =>
    cases i with
    | zero =>
      rw [one_hot_succ_zero]
      simp [foldr_max_replicate_zero]
    | succ i =>
      rw [one_hot_succ_succ]
      simp [ih i (by omega)]

theorem argmax_one_hot (n i : Nat) (h : i < n) :
    argmax (one_hot n i) = i := by
  induction n generalizing i with
  | zero => omega
  | succ n ih =>
    cases i with
    | zero =>
      rw [one_hot_succ_zero]
      simp [argmax, foldr_max_replicate_zero]
    | succ i =>
      rw [one_hot_succ_succ]
      have h1 : (one_hot n i).foldr max 0 = 1 := foldr_max_one_hot n i (by omega)
      simp [argmax, h1, ih i (by omega)]

theorem length_one_hot (n i : Nat) : (one_hot n i).length = n := by
  simp [one_hot]

theorem getD_map {α β : Type} (f : α → β) (l : List α) (p : Nat)
    (h : p < l.length) (d : α) (d2 : β) :
    (l.map f).getD p d2 = f (l.getD p d) := by
  induction l generalizing p with
  | nil => simp at h
  | cons a l ih =>
    cases p with
    | zero => simp
    | succ p =>
      simp only [List.map_cons, List.getD_cons_succ]
      exact ih p (by simpa using h)

theorem getD_zipWith {α β γ : Type} (f : α → β → γ) (l1 : List α)
    (l2 : List β) (p : Nat) (h1 : p < l1.length) (h2 : p < l2.length)
    (d1 : α) (d2 : β) (d3 : γ) :
    (List.zipWith f l1 l2).getD p d3 = f (l1.getD p d1) (l2.getD p d2) := by
  induction l1 generalizing l2 p with
  | nil => simp at h1
  | cons a l1 ih =>
    cases l2 with
    | nil => simp at h2
    | cons b l2 =>
      cases p with
      | zero => simp
      | succ p =>
        simp only [List.zipWith_cons_cons, List.getD_cons_succ]
        exact ih l2 p (by simpa using h1) (by simpa using h2)

/-! ### Claim theorems: vocabularies and one-hot helpers -/

/-- C7: the hydrogen-free vocabulary maps every non-hydrogen symbol of the
full vocabulary to its full-vocabulary code minus one, and the resulting codes
are the dense integers 0..14 in order. -/
theorem atom_encoder_noh_shift :
    (∀ kv ∈ full_atom_encoder, kv.1 ≠ "H" →
      List.lookup kv.1 atom_encoder_noh = some (kv.2 - 1)) ∧
    atom_encoder_noh.map (fun kv => kv.2) = List.range 15 := by
  decide

theorem atom_encoder_noh_shift_witness :
    List.lookup "C" atom_encoder_noh = some 1 :=
  atom_encoder_noh_shift.1 ("C", 2) (by decide) (by decide)

/-- C8: one-hot expansion round-trips: at a node position selected by the
mask, one-hot encoding an in-range atom-type index and taking the arg-max
recovers the index; and for every charge in -2..3, `one_hot_charges` yields a
6-dimensional vector whose arg-max minus 2 equals the charge. -/
theorem one_hot_roundtrip (n : Nat) (X : List Nat) (node_mask : List Bool)
    (p : Nat) (hp : p < X.length) (hm : p < node_mask.length)
    (hmask : node_mask.getD p false = true) (hin : X.getD p 0 < n) :
    argmax ((to_one_hot_X n X node_mask).getD p []) = X.getD p 0 ∧
    (∀ c : Int, -2 ≤ c → c ≤ 3 →
      (one_hot_charges c).length = 6 ∧
      (argmax (one_hot_charges c) : Int) - 2 = c) := by
  constructor
  · rw [to_one_hot_X,
      getD_zipWith mask_row node_mask (X.map (one_hot n)) p hm
        (by simpa using hp) false [] [],
      getD_map (one_hot n) X p hp 0 [], hmask]
    simpa [mask_row] using argmax_one_hot n _ hin
  · intro c hc1 hc2
    have htn : (c + 2).toNat < 6 := by omega
    refine ⟨by simp [one_hot_charges, length_one_hot], ?_⟩
    rw [one_hot_charges, argmax_one_hot 6 _ htn]
    omega

theorem one_hot_roundtrip_witness :
    argmax ((to_one_hot_X 16 [3] [true]).getD 0 []) = 3 ∧
    (∀ c : Int, -2 ≤ c → c ≤ 3 →
      (one_hot_charges c).length = 6 ∧
      (argmax (one_hot_charges c) : Int) - 2 = c) :=
  one_hot_roundtrip 16 [3] [true] 0 (by decide) (by decide) (by decide)
    (by decide)

/-- C9: every row of `pharma_to_one_hot` has exactly `num_families` channels
(the family code is one-hot encoded over `num_families + 1` classes and the
reserved padding channel 0 is dropped), and every position whose mask entry is
zero is the all-zero vector. -/
theorem pharma_one_hot_mask_channels (nf : Nat) (X pharma_mask : List Nat)
    (p : Nat) (hp : p < X.length) (hm : p < pharma_mask.length) :
    ((pharma_to_one_hot nf X pharma_mask).getD p []).length = nf ∧
    (pharma_mask.getD p 0 = 0 →
      (pharma_to_one_hot nf X pharma_mask).getD p [] = List.replicate nf 0) := by
  rw [pharma_to_one_hot,
    getD_zipWith _ (X.map (one_hot (nf + 1))) pharma_mask p
      (by simpa using hp) hm [] 0 [],
    getD_map (one_hot (nf + 1)) X p hp 0 []]
  constructor
  · simp [length_one_hot]
  · intro h0
    rw [h0]
    have hzero : (fun v => v * 0) = (fun _ : Nat => (0 : Nat)) := by
      funext v
      simp
    rw [hzero]
    simp [List.eq_replicate_iff, length_one_hot]

theorem pharma_one_hot_mask_channels_witness :
    ((pharma_to_one_hot 8 [2, 5] [1, 0]).getD 1 []).length = 8 ∧
    (pharma_to_one_hot 8 [2, 5] [1, 0]).getD 1 [] = List.replicate 8 0 := by
  have h := pharma_one_hot_mask_channels 8 [2, 5] [1, 0] 1 (by decide)
    (by decide)
  exact ⟨h.1, h.2 (by decide)⟩

/-! ### Helper lemmas about the corpus-building loop -/

theorem conformerLoop_break {L P M Pos : Type} (env : Env L P)
    (cs : List (Conformer L P M Pos)) (j : Nat) (st : ProcessState L P)
    (hj : 1 ≤ j) : conformerLoop env cs j st = .ok st := by
  cases cs with
  | nil => rfl
  | cons c rest => simp [conformerLoop, hj]

theorem processConformerBody_sanitize_fail {L P M Pos : Type} (env : Env L P)
    (c : Conformer L P M Pos) (st : ProcessState L P)
    (hfail : c.sanitize_ok = false ∨ c.kekulize_ok = false) :
    processConformerBody env c st = .ok st := by
  have hand : (c.sanitize_ok && c.kekulize_ok) = false := by
    rcases hfail with h | h <;> simp [h]
  simp [processConformerBody, hand]

theorem processConformerBody_data_list {L P M Pos : Type} (env : Env L P)
    (c : Conformer L P M Pos) (st st' : ProcessState L P)
    (h : processConformerBody env c st = .ok st') :
    st'.data_list = st.data_list ∨
      ∃ pair, st'.data_list = st.data_list ++ [pair] := by
  simp only [processConformerBody] at h
  repeat' split at h
  all_goals cases h
  all_goals first
    | exact Or.inl rfl
    | exact Or.inr ⟨_, rfl⟩

theorem processConformerBody_all_smiles {L P M Pos : Type} (env : Env L P)
    (c : Conformer L P M Pos) (st st' : ProcessState L P)
    (h : processConformerBody env c st = .ok st') :
    st'.all_smiles = st.all_smiles := by
  simp only [processConformerBody] at h
  repeat' split at h
  all_goals cases h
  all_goals rfl

theorem conformerLoop_all_smiles {L P M Pos : Type} (env : Env L P) :
    ∀ (cs : List (Conformer L P M Pos)) (j : Nat)
      (st st' : ProcessState L P),
      conformerLoop env cs j st = .ok st' → st'.all_smiles = st.all_smiles
  | [], _, st, st', h => by cases h; rfl
  | c :: rest, j, st, st', h => by
    rw [conformerLoop] at h
    split at h
    · cases h
      rfl
    · cases hb : processConformerBody env c st with
      | error e =>
        rw [hb] at h
        cases h
      | ok st1 =>
        rw [hb] at h
        have h2 := conformerLoop_all_smiles env rest (j + 1) st1 st' h
        rw [h2, processConformerBody_all_smiles env c st st1 hb]

theorem recordLoop_all_smiles {L P M Pos : Type} (env : Env L P) :
    ∀ (records : List (String × List (Conformer L P M Pos)))
      (st st' : ProcessState L P),
      recordLoop env records st = .ok st' →
      st'.all_smiles = st.all_smiles ++ records.map (fun r => r.1)
  | [], st, st', h => by
    cases h
    simp
  | (s, cs) :: rest, st, st', h => by
    simp only [recordLoop] at h
    cases hc : conformerLoop env cs 0
        { st with all_smiles := st.all_smiles ++ [s] } with
    | error e =>
      rw [hc] at h
      cases h
    | ok st1 =>
      rw [hc] at h
      have h2 := recordLoop_all_smiles env rest st1 st' h
      have h3 := conformerLoop_all_smiles env cs 0 _ st1 hc
      rw [h2, h3]
      simp

/-! ### Concrete instances used for witnesses and counterexamples -/

/-- A trivial run configuration: `remove_h = False`, no `pre_filter`, no
`pre_transform`. -/
def plainEnv : Env Nat Nat :=
  { remove_h := false, remove_hydrogens := fun a b => (a, b),
    pre_filter := none, pre_transform := none }

/-- A conformer on which `Chem.SanitizeMol` raises. -/
def failSanitizeConformer : Conformer Nat Nat Unit Unit :=
  { sanitize_ok := false, kekulize_ok := true,
    mol_to_torch_geometric := .ok (0, ()),
    mol_to_torch_pharmacophore := fun _ => some 0,
    remove_hs := .ok (some ()),
    mol_to_smiles := fun _ => some "X" }

/-- A conformer on which every external call succeeds. -/
def goodConformer : Conformer Nat Nat Unit Unit :=
  { sanitize_ok := true, kekulize_ok := true,
    mol_to_torch_geometric := .ok (5, ()),
    mol_to_torch_pharmacophore := fun _ => some 7,
    remove_hs := .ok (some ()),
    mol_to_smiles := fun _ => some "CC" }

/-- A sanitizable conformer containing an element symbol outside the
vocabulary: `mol_to_torch_geometric` raises `UnknownElementError`. -/
def unknownElementConformer : Conformer Nat Nat Unit Unit :=
  { sanitize_ok := true, kekulize_ok := true,
    mol_to_torch_geometric := .error { symbol := "Se" },
    mol_to_torch_pharmacophore := fun _ => some 0,
    remove_hs := .ok (some ()),
    mol_to_smiles := fun _ => some "X" }

/-- A conformer whose pharmacophore derivation yields no feature points. -/
def noPharmaConformer : Conformer Nat Nat Unit Unit :=
  { sanitize_ok := true, kekulize_ok := true,
    mol_to_torch_geometric := .ok (9, ()),
    mol_to_torch_pharmacophore := fun _ => none,
    remove_hs := .ok (some ()),
    mol_to_smiles := fun _ => some "X" }

/-- A retained conformer for which `Chem.RemoveHs` returns `None`. -/
def removeHsNoneConformer : Conformer Nat Nat Unit Unit :=
  { sanitize_ok := true, kekulize_ok := true,
    mol_to_torch_geometric := .ok (3, ()),
    mol_to_torch_pharmacophore := fun _ => some 4,
    remove_hs := .ok none,
    mol_to_smiles := fun _ => some "never-used" }

/-- A processing state left by an earlier record, with `smiles_no_h` bound to
the earlier record's value. -/
def staleState : ProcessState Nat Nat :=
  { data_list := [(1, 2)], all_smiles := ["CC"], mols_list := [1],
    all_smiles_noh := ["C"], smiles_no_h := some (some "C") }

/-- A two-record raw split: the first record fails sanitization, the second
succeeds end to end. -/
def twoRecords : List (String × List (Conformer Nat Nat Unit Unit)) :=
  [("CCO", [failSanitizeConformer]), ("CC", [goodConformer])]

/-- The state `process plainEnv twoRecords` ends in. -/
def twoRecordsState : ProcessState Nat Nat :=
  { data_list := [(5, 7)], all_smiles := ["CCO", "CC"], mols_list := [5],
    all_smiles_noh := ["CC"], smiles_no_h := some (some "CC") }

/-! ### Claim theorems: the corpus-building loop -/

/-- C1: a record whose first conformer fails sanitization or kekulization is
skipped entirely and without any exception: the conformer loop returns the
state unchanged (no pair appended to `data_list`, nothing added to
`mols_list`, so the record contributes nothing to the statistics computed from
`mols_list`), and a split whose only record is such a record yields zero
retained records. -/
theorem sanitize_failure_skips_record {L P M Pos : Type} (env : Env L P)
    (c : Conformer L P M Pos) (cs : List (Conformer L P M Pos)) (s : String)
    (st : ProcessState L P)
    (hfail : c.sanitize_ok = false ∨ c.kekulize_ok = false) :
    conformerLoop env (c :: cs) 0 st = .ok st ∧
    process env [(s, c :: cs)] =
      .ok { data_list := [], all_smiles := [s], mols_list := [],
            all_smiles_noh := [], smiles_no_h := none } := by
  have h1 : ∀ st0 : ProcessState L P,
      conformerLoop env (c :: cs) 0 st0 = .ok st0 := by
    intro st0
    simp [conformerLoop, processConformerBody_sanitize_fail env c st0 hfail,
      conformerLoop_break]
  refine ⟨h1 st, ?_⟩
  simp [process, recordLoop, h1, initState]

theorem sanitize_failure_skips_record_witness :
    conformerLoop plainEnv [failSanitizeConformer] 0
      (initState : ProcessState Nat Nat) = .ok initState ∧
    process plainEnv [("CCO", [failSanitizeConformer])] =
      .ok { data_list := [], all_smiles := ["CCO"], mols_list := [],
            all_smiles_noh := [], smiles_no_h := none } :=
  sanitize_failure_skips_record plainEnv failSanitizeConformer [] "CCO"
    initState (Or.inl rfl)

/-- C2 (on the failing input): `mol_to_torch_geometric` is called outside the
`try/except` that guards only `SanitizeMol`/`Kekulize` (geom_dataset.py lines
112-117), so an `UnknownElementError` is NOT caught by the corpus-building
caller: the whole build aborts with the exception and the later well-formed
record is never processed. -/
theorem unknown_element_error_aborts_build :
    process plainEnv [("[SeH2]", [unknownElementConformer]),
                      ("CC", [goodConformer])] =
      .error { symbol := "Se" } := by
  rfl

/-- C3 counterexample: a split whose only record fails sanitization retains
zero records, yet the persisted with-hydrogen SMILES set already contains that
record's raw input SMILES — refuting the claim that every element of the set
is the canonical SMILES of a retained record. -/
theorem smiles_set_not_only_retained :
    process plainEnv [("c1ccccc1", [failSanitizeConformer])] =
      .ok { data_list := [], all_smiles := ["c1ccccc1"], mols_list := [],
            all_smiles_noh := [], smiles_no_h := none } ∧
    smiles_set ({ data_list := [], all_smiles := ["c1ccccc1"],
                  mols_list := [], all_smiles_noh := [],
                  smiles_no_h := none } : ProcessState Nat Nat) =
      ["c1ccccc1"] :=
  ⟨rfl, rfl⟩

/-- C3 amended: the with-hydrogen SMILES list records the raw input SMILES of
EVERY record, retained or skipped, unconditionally and in input order (the
append happens before any sanitization/pharmacophore/pre-filter check); the
persisted set is the deduplication of the input SMILES of all records. -/
theorem all_smiles_tracks_every_record {L P M Pos : Type} (env : Env L P)
    (records : List (String × List (Conformer L P M Pos)))
    (st : ProcessState L P) (h : process env records = .ok st) :
    st.all_smiles = records.map (fun r => r.1) ∧
    smiles_set st = (records.map (fun r => r.1)).dedup := by
  have h1 := recordLoop_all_smiles env records initState st h
  simp [initState] at h1
  exact ⟨h1, by rw [smiles_set, h1]⟩

theorem all_smiles_tracks_every_record_witness :
    twoRecordsState.all_smiles = twoRecords.map (fun r => r.1) ∧
    smiles_set twoRecordsState = (twoRecords.map (fun r => r.1)).dedup :=
  all_smiles_tracks_every_record plainEnv twoRecords twoRecordsState rfl

/-- C4: for a retained record whose `Chem.RemoveHs` returns `None`, the
`smiles_no_h` variable silently keeps whatever value an earlier record left in
it, and that stale value is what gets appended to `all_smiles_noh` — the
appended no-H entry does not derive from the current record's molecule (the
record itself is still retained: `data_list` grows by one). -/
theorem stale_smiles_noh_appended {L P M Pos : Type} (env : Env L P)
    (c : Conformer L P M Pos) (st : ProcessState L P) (d : L) (pm : Pos)
    (ph : P) (s0 : String)
    (hsan : c.sanitize_ok = true) (hkek : c.kekulize_ok = true)
    (hgeo : c.mol_to_torch_geometric = .ok (d, pm))
    (hph : c.mol_to_torch_pharmacophore pm = some ph)
    (hfil : env.pre_filter = none)
    (hrem : c.remove_hs = .ok none)
    (hstale : st.smiles_no_h = some (some s0)) :
    ∃ st', processConformerBody env c st = .ok st' ∧
      st'.all_smiles_noh = st.all_smiles_noh ++ [s0] ∧
      st'.data_list.length = st.data_list.length + 1 := by
  simp [processConformerBody, hsan, hkek, hgeo, hph, hfil, hrem, hstale]

theorem stale_smiles_noh_appended_witness :
    ∃ st', processConformerBody plainEnv removeHsNoneConformer staleState =
        .ok st' ∧
      st'.all_smiles_noh = staleState.all_smiles_noh ++ ["C"] ∧
      st'.data_list.length = staleState.data_list.length + 1 :=
  stale_smiles_noh_appended plainEnv removeHsNoneConformer staleState 3 () 4
    "C" rfl rfl rfl rfl rfl rfl rfl

/-- C5: a record whose pharmacophore derivation yields no feature points is
dropped: the loop body returns the state completely unchanged — no (ligand,
pharmacophore) pair is appended and the molecule is not added to `mols_list`,
the list the statistics are aggregated over.  (The deriver is external to
this file; modelled from the spec, a derivation with zero feature points is
the empty result, `none`.) -/
theorem empty_pharmacophore_drops_record {L P M Pos : Type} (env : Env L P)
    (c : Conformer L P M Pos) (cs : List (Conformer L P M Pos))
    (st : ProcessState L P) (d : L) (pm : Pos)
    (hsan : c.sanitize_ok = true) (hkek : c.kekulize_ok = true)
    (hgeo : c.mol_to_torch_geometric = .ok (d, pm))
    (hph : c.mol_to_torch_pharmacophore pm = none) :
    processConformerBody env c st = .ok st ∧
    conformerLoop env (c :: cs) 0 st = .ok st := by
  have hbody : processConformerBody env c st = .ok st := by
    simp [processConformerBody, hsan, hkek, hgeo, hph]
  exact ⟨hbody, by simp [conformerLoop, hbody, conformerLoop_break]⟩

theorem empty_pharmacophore_drops_record_witness :
    processConformerBody plainEnv noPharmaConformer
      (initState : ProcessState Nat Nat) = .ok initState ∧
    conformerLoop plainEnv [noPharmaConformer] 0 initState = .ok initState :=
  empty_pharmacophore_drops_record plainEnv noPharmaConformer [] initState 9
    () rfl rfl rfl rfl

/-- C6: only the first conformer of a record is processed: the conformer loop
on `c :: cs` ignores `cs` entirely (it equals the loop on `[c]`), and hence a
record appends at most one (ligand, pharmacophore) pair to the corpus. -/
theorem first_conformer_only {L P M Pos : Type} (env : Env L P)
    (c : Conformer L P M Pos) (cs : List (Conformer L P M Pos))
    (st : ProcessState L P) :
    conformerLoop env (c :: cs) 0 st = conformerLoop env [c] 0 st ∧
    (∀ st', conformerLoop env (c :: cs) 0 st = .ok st' →
      st'.data_list.length ≤ st.data_list.length + 1) := by
  have heq : conformerLoop env (c :: cs) 0 st = conformerLoop env [c] 0 st := by
    cases hb : processConformerBody env c st with
    | error e => simp [conformerLoop, hb]
    | ok st1 => simp [conformerLoop, hb, conformerLoop_break]
  refine ⟨heq, ?_⟩
  intro st' h
  rw [heq] at h
  have hsingle : processConformerBody env c st = .ok st' := by
    cases hb : processConformerBody env c st with
    | error e => simp [conformerLoop, hb] at h
    | ok st1 =>
      simp [conformerLoop, hb] at h
      subst h
      rfl
  rcases processConformerBody_data_list env c st st' hsingle with h1 | ⟨pair, h2⟩
  · simp [h1]
  · simp [h2]

theorem first_conformer_only_witness :
    conformerLoop plainEnv [goodConformer, goodConformer] 0
      (initState : ProcessState Nat Nat) =
      conformerLoop plainEnv [goodConformer] 0 initState ∧
    ({ data_list := [(5, 7)], all_smiles := [], mols_list := [5],
       all_smiles_noh := ["CC"], smiles_no_h := some (some "CC") } :
        ProcessState Nat Nat).data_list.length ≤
      (initState : ProcessState Nat Nat).data_list.length + 1 :=
  ⟨(first_conformer_only plainEnv goodConformer [goodConformer] initState).1,
   (first_conformer_only plainEnv goodConformer [goodConformer] initState).2
     _ rfl⟩

/-- C10: on every successful build, the collated ligand and pharmacophore
lists have equal length (so the `assert` in `custome_collate` holds),
`__len__` equals that common length, and `__getitem__(i)` returns exactly the
(ligand, pharmacophore) pair that was appended together from the `i`-th
retained record, in retention order. -/
theorem dataset_pairing_invariant {L P M Pos : Type} (env : Env L P)
    (records : List (String × List (Conformer L P M Pos)))
    (st : ProcessState L P) (_h : process env records = .ok st) :
    (custome_collate st.data_list).ligand.length =
      (custome_collate st.data_list).pharmacophore.length ∧
    dataset_len (custome_collate st.data_list) = st.data_list.length ∧
    (∀ i, i < dataset_len (custome_collate st.data_list) →
      dataset_getitem (custome_collate st.data_list) i =
        st.data_list[i]?) := by
  refine ⟨by simp [custome_collate], by simp [dataset_len, custome_collate],
    ?_⟩
  intro i hi
  simp only [dataset_len, custome_collate, List.length_map] at hi
  simp only [dataset_getitem, custome_collate, List.getElem?_map]
  rw [List.getElem?_eq_getElem hi]
  simp

theorem dataset_pairing_invariant_witness :
    dataset_len (custome_collate twoRecordsState.data_list) =
      twoRecordsState.data_list.length ∧
    dataset_getitem (custome_collate twoRecordsState.data_list) 0 =
      twoRecordsState.data_list[0]? :=
  ⟨(dataset_pairing_invariant plainEnv twoRecords twoRecordsState rfl).2.1,
   (dataset_pairing_invariant plainEnv twoRecords twoRecordsState rfl).2.2 0
     (by decide)⟩
